import Mathlib

/-!
Verification of `controlador_temperatura.ino` (temperature controller with a
DHT22 sensor, two touch buttons, a MOSFET actuator and an 8x8 LED matrix).

The sketch's globals are gathered into `ControllerState`; each Arduino
function becomes a state-transition function taking the current `millis()`
value and the sampled inputs explicitly.  Unsigned 32-bit `millis()`
subtraction is modelled by `wsub`.  The `float` temperature and humidity are
modelled by `ℚ`; a failed DHT read (NaN) is modelled by `none`.  The LED
matrix driver calls (`clearDisplay`, `setColumn`) are modelled on an 8-entry
column-major frame buffer.
-/

-- --- System constants (src lines 284-286) ---

def SENSOR_READ_INTERVAL : Nat := 2000

def DISPLAY_TIMEOUT : Nat := 10000

def DEBOUNCE_DELAY : Nat := 50

/-- Arduino `unsigned long` is 32 bits wide. -/
def ULONG_MOD : Nat := 4294967296

/-- Unsigned 32-bit subtraction `a - b`, as computed by `millis() - t` in the
sketch, for timestamps below `ULONG_MOD`. -/
def wsub (a b : Nat) : Nat := (ULONG_MOD + a - b) % ULONG_MOD

theorem wsub_eq_sub (a b : Nat) (h1 : b ≤ a) (h2 : a - b < ULONG_MOD) :
    wsub a b = a - b := by
  unfold wsub ULONG_MOD at *
  omega

-- --- Font tables (src lines 313-327, the column-format revision) ---

/-- Column bitmaps for the digits 0-9; each digit is 3 columns of 8 rows
(src lines 313-324). -/
def font : List (List Nat) :=
  [[62, 33, 62],
   [16, 63, 16],
   [50, 41, 38],
   [34, 41, 62],
   [12, 10, 63],
   [47, 41, 57],
   [62, 41, 56],
   [3, 4, 60],
   [62, 41, 62],
   [14, 41, 62]]

/-- Column bitmaps for the minus sign (src lines 325-327). -/
def font_minus : List Nat := [8, 8]

/-- Array access `font[d][i]`. -/
def fontGet (d i : Nat) : Nat := (font.getD d []).getD i 0

/-- Array access `font_minus[i]`. -/
def fontMinusGet (i : Nat) : Nat := font_minus.getD i 0

-- --- Frame buffer model of the LedControl matrix driver ---

/-- Column-major frame buffer: entry `c` is the 8-row bitmap of column `c`. -/
abbrev FrameBuffer := List Nat

/-- Model of `lc.clearDisplay(0)`: all LEDs off. -/
def clearDisplay : FrameBuffer := List.replicate 8 0

/-- Model of `lc.setColumn(0, col, value)`.  `List.set` leaves the buffer
unchanged for an out-of-range column, exactly like the driver's bounds
guard. -/
def setColumn (buf : FrameBuffer) (col : Nat) (value : Nat) : FrameBuffer :=
  buf.set col value

-- --- displayNumber (src lines 459-499) ---

/-- The saturation at the top of `displayNumber` (src lines 463-464):
`if (number > 99) number = 99; if (number < -9) number = -9;`. -/
def clampDisplay (number : Int) : Int :=
  if 99 < number then 99 else if number < -9 then -9 else number

/-- The body of `displayNumber` after the clamp (src lines 466-498): branch on
two-digit / single-digit / negative and render via `setColumn`. -/
def renderNumber (number : Int) : FrameBuffer :=
  if 10 ≤ number then
    let tens := number.toNat / 10
    let ones := number.toNat % 10
    let b1 := (List.range 3).foldl
      (fun b i => setColumn b i (fontGet tens i)) clearDisplay
    (List.range 3).foldl
      (fun b i => setColumn b (i + 4) (fontGet ones i)) b1
  else if 0 ≤ number then
    let ones := number.toNat % 10
    (List.range 3).foldl
      (fun b i => setColumn b (i + 2) (fontGet ones i)) clearDisplay
  else
    let ones := number.natAbs % 10
    let b1 := (List.range 2).foldl
      (fun b i => setColumn b i (fontMinusGet i)) clearDisplay
    (List.range 3).foldl
      (fun b i => setColumn b (i + 3) (fontGet ones i)) b1

/-- `displayNumber` (src lines 459-499): clear, clamp to [-9, 99], render. -/
def displayNumber (number : Int) : FrameBuffer :=
  renderNumber (clampDisplay number)

-- --- Controller state: the sketch's globals (src lines 294-308) ---

structure ControllerState where
  currentTemperature : ℚ
  currentHumidity : ℚ
  userSetTemperature : Int
  displayShowsSetTemp : Bool
  lastInteractionTime : Nat
  lastSensorReadTime : Nat
  lastUpButtonState : Bool
  lastDownButtonState : Bool
  lastDebounceTime : Nat
  deriving DecidableEq, Repr

-- --- controlMosfet (src lines 426-433) ---

/-- The drive decision of `controlMosfet`:
`currentTemperature > 0 && currentTemperature < userSetTemperature`. -/
def driveDecision (temp : ℚ) (setpoint : Int) : Bool :=
  decide (0 < temp) && decide (temp < (setpoint : ℚ))

/-- `controlMosfet` (src lines 426-433): the level written to `MOSFET_PIN`
(`true` = HIGH = actuator energized). -/
def controlMosfet (s : ControllerState) : Bool :=
  driveDecision s.currentTemperature s.userSetTemperature

-- --- readSensor (src lines 398-421) ---

/-- `readSensor` (src lines 398-421): when the sampling interval has elapsed,
advance `lastSensorReadTime` first, then read; a NaN on either channel
(`none`) leaves the last-known-good values untouched. -/
def readSensor (now : Nat) (h t : Option ℚ) (s : ControllerState) :
    ControllerState :=
  if SENSOR_READ_INTERVAL ≤ wsub now s.lastSensorReadTime then
    let s1 := { s with lastSensorReadTime := now }
    match h, t with
    | some hv, some tv =>
        { s1 with currentTemperature := tv, currentHumidity := hv }
    | _, _ => s1
  else s

-- --- handleButtons (src lines 364-393) ---

/-- `handleButtons` (src lines 364-393): when the debounce window has expired,
sample both buttons; a low-to-high edge on UP increments the setpoint, one on
DOWN decrements it; each accepted edge records the interaction time, switches
the display to the setpoint and restarts the debounce window. -/
def handleButtons (now : Nat) (up down : Bool) (s : ControllerState) :
    ControllerState :=
  if DEBOUNCE_DELAY < wsub now s.lastDebounceTime then
    let s1 :=
      if up ≠ s.lastUpButtonState ∧ up = true then
        { s with userSetTemperature := s.userSetTemperature + 1,
                 lastInteractionTime := now,
                 displayShowsSetTemp := true,
                 lastDebounceTime := now }
      else s
    let s2 :=
      if down ≠ s1.lastDownButtonState ∧ down = true then
        { s1 with userSetTemperature := s1.userSetTemperature - 1,
                  lastInteractionTime := now,
                  displayShowsSetTemp := true,
                  lastDebounceTime := now }
      else s1
    { s2 with lastUpButtonState := up, lastDownButtonState := down }
  else s

-- --- updateDisplay (src lines 438-453) ---

/-- `updateDisplay` (src lines 438-453): revert the mode once the idle
timeout has strictly elapsed, then draw either the setpoint or the rounded
current temperature. -/
def updateDisplay (now : Nat) (s : ControllerState) :
    ControllerState × FrameBuffer :=
  let s1 :=
    if s.displayShowsSetTemp = true ∧
        DISPLAY_TIMEOUT < wsub now s.lastInteractionTime then
      { s with displayShowsSetTemp := false }
    else s
  let tempToDisplay : Int :=
    if s1.displayShowsSetTemp = true then s1.userSetTemperature
    else round s1.currentTemperature
  (s1, displayNumber tempToDisplay)

-- --- loop (src lines 353-359) ---

/-- One pass of `loop()`: buttons, sensor, actuator, display.  Returns the
new state, the MOSFET level and the rendered frame. -/
def loopPass (now : Nat) (up down : Bool) (h t : Option ℚ)
    (s : ControllerState) : ControllerState × Bool × FrameBuffer :=
  let s1 := handleButtons now up down s
  let s2 := readSensor now h t s1
  let drive := controlMosfet s2
  let sf := updateDisplay now s2
  (sf.1, drive, sf.2)

/-- A fresh state with a given setpoint and debounce origin; the remaining
fields take the sketch's initial values (src lines 294-308). -/
def mkState (sp : Int) (d0 : Nat) : ControllerState :=
  { currentTemperature := 0,
    currentHumidity := 0,
    userSetTemperature := sp,
    displayShowsSetTemp := false,
    lastInteractionTime := 0,
    lastSensorReadTime := 0,
    lastUpButtonState := false,
    lastDownButtonState := false,
    lastDebounceTime := d0 }

-- --- Helper lemmas ---

theorem clampDisplay_le (n : Int) : clampDisplay n ≤ 99 := by
  unfold clampDisplay
  split_ifs <;> omega

theorem clampDisplay_ge (n : Int) : -9 ≤ clampDisplay n := by
  unfold clampDisplay
  split_ifs <;> omega

theorem clampDisplay_of_mem (n : Int) (h1 : -9 ≤ n) (h2 : n ≤ 99) :
    clampDisplay n = n := by
  unfold clampDisplay
  split_ifs <;> omega

-- --- C1 ---

/-- C1: the actuator drive decision equals `(t > 0) AND (t < s)` for every
last-known temperature `t` and setpoint `s`; in particular
`drive(-5, 25) = false`, `drive(20, 25) = true`, `drive(30, 25) = false`,
and the actuator is never energized while the temperature holds its invalid
sentinel (0 or below). -/
theorem controlMosfet_drive_policy :
    (∀ (t : ℚ) (sp : Int),
        driveDecision t sp = true ↔ (0 < t ∧ t < (sp : ℚ)))
    ∧ (∀ s : ControllerState,
        controlMosfet s = driveDecision s.currentTemperature s.userSetTemperature)
    ∧ driveDecision (-5) 25 = false
    ∧ driveDecision 20 25 = true
    ∧ driveDecision 30 25 = false
    ∧ (∀ (t : ℚ) (sp : Int), t ≤ 0 → driveDecision t sp = false) := by
  refine ⟨?_, fun s => rfl, by decide, by decide, by decide, ?_⟩
  · intro t sp
    unfold driveDecision
    simp
  · intro t sp ht
    unfold driveDecision
    simp only [Bool.and_eq_false_iff, decide_eq_false_iff_not, not_lt]
    left
    exact ht

/-- Witness for C1: the sentinel guard at temperature 0. -/
theorem controlMosfet_drive_policy_witness : driveDecision 0 25 = false :=
  controlMosfet_drive_policy.2.2.2.2.2 0 25 (le_refl 0)

-- --- C3 ---

/-- C3: `displayNumber` saturates to [-9, 99]: every input above 99 renders
like 99 and every input below -9 renders like -9; no input is rejected. -/
theorem displayNumber_saturates (n : Int) :
    (99 < n → displayNumber n = displayNumber 99)
    ∧ (n < -9 → displayNumber n = displayNumber (-9)) := by
  constructor
  · intro h
    have hc : clampDisplay n = 99 := by
      unfold clampDisplay
      split_ifs <;> omega
    unfold displayNumber
    rw [hc]
    rfl
  · intro h
    have hc : clampDisplay n = -9 := by
      unfold clampDisplay
      split_ifs <;> omega
    unfold displayNumber
    rw [hc]
    rfl

/-- Witness for C3: saturation at 150 and at -15. -/
theorem displayNumber_saturates_witness :
    displayNumber 150 = displayNumber 99 ∧
    displayNumber (-15) = displayNumber (-9) :=
  ⟨(displayNumber_saturates 150).1 (by norm_num),
   (displayNumber_saturates (-15)).2 (by norm_num)⟩

-- --- C4 ---

/-- C4: for 10 ≤ n ≤ 99 the tens glyph occupies columns 0-2, column 3 is the
blank spacer, the ones glyph occupies columns 4-6, and column 7 stays blank;
the buffer is exactly 8 columns, so nothing is written outside it. -/
theorem displayNumber_two_digit_layout (n : Int) (h1 : 10 ≤ n) (h2 : n ≤ 99) :
    displayNumber n =
      [fontGet (n.toNat / 10) 0, fontGet (n.toNat / 10) 1,
       fontGet (n.toNat / 10) 2, 0,
       fontGet (n.toNat % 10) 0, fontGet (n.toNat % 10) 1,
       fontGet (n.toNat % 10) 2, 0] := by
  have hc : clampDisplay n = n := clampDisplay_of_mem n (by omega) h2
  unfold displayNumber
  rw [hc]
  unfold renderNumber
  rw [if_pos h1]
  rfl

/-- Witness for C4: the two-digit layout at 47. -/
theorem displayNumber_two_digit_layout_witness :
    displayNumber 47 =
      [fontGet ((47 : Int).toNat / 10) 0, fontGet ((47 : Int).toNat / 10) 1,
       fontGet ((47 : Int).toNat / 10) 2, 0,
       fontGet ((47 : Int).toNat % 10) 0, fontGet ((47 : Int).toNat % 10) 1,
       fontGet ((47 : Int).toNat % 10) 2, 0] :=
  displayNumber_two_digit_layout 47 (by norm_num) (by norm_num)

-- --- C5 ---

/-- C5: for -9 ≤ n ≤ -1 the 2-column minus glyph occupies columns 0-1,
column 2 is the blank separator, the glyph of `abs(n) % 10` occupies columns
3-5, and the unused columns 6 and 7 stay zero. -/
theorem displayNumber_negative_layout (n : Int) (h1 : -9 ≤ n) (h2 : n ≤ -1) :
    displayNumber n =
      [fontMinusGet 0, fontMinusGet 1, 0,
       fontGet (n.natAbs % 10) 0, fontGet (n.natAbs % 10) 1,
       fontGet (n.natAbs % 10) 2, 0, 0] := by
  have hc : clampDisplay n = n := clampDisplay_of_mem n h1 (by omega)
  unfold displayNumber
  rw [hc]
  unfold renderNumber
  rw [if_neg (by omega), if_neg (by omega)]
  rfl

/-- Witness for C5: the negative layout at -7. -/
theorem displayNumber_negative_layout_witness :
    displayNumber (-7) =
      [fontMinusGet 0, fontMinusGet 1, 0,
       fontGet ((-7 : Int).natAbs % 10) 0, fontGet ((-7 : Int).natAbs % 10) 1,
       fontGet ((-7 : Int).natAbs % 10) 2, 0, 0] :=
  displayNumber_negative_layout (-7) (by norm_num) (by norm_num)

-- --- C6 (corrected) ---

/-- Count of blank (all-zero) columns at the left edge of a frame. -/
def leadingBlankCols (b : FrameBuffer) : Nat :=
  (b.takeWhile (fun c => c == 0)).length

/-- Count of blank (all-zero) columns at the right edge of a frame. -/
def trailingBlankCols (b : FrameBuffer) : Nat :=
  (b.reverse.takeWhile (fun c => c == 0)).length

/-- Counterexample for C6 as stated: for the single digit 5 the glyph sits at
columns 2-4, leaving 2 blank columns on the left but 3 on the right — the
claimed left/right symmetry fails. -/
theorem displayNumber_single_digit_not_symmetric :
    leadingBlankCols (displayNumber 5) = 2 ∧
    trailingBlankCols (displayNumber 5) = 3 ∧
    leadingBlankCols (displayNumber 5) ≠ trailingBlankCols (displayNumber 5) := by
  refine ⟨by decide, by decide, by decide⟩

/-- C6 (amended): for 0 ≤ n ≤ 9 the single digit glyph occupies columns 2-4
of the 8-column buffer — near-centered, with two blank columns on the left
and three on the right (exact symmetry is impossible for a 3-column glyph in
8 columns). -/
theorem displayNumber_single_digit_layout (n : Int) (h1 : 0 ≤ n) (h2 : n ≤ 9) :
    displayNumber n =
      [0, 0, fontGet (n.toNat % 10) 0, fontGet (n.toNat % 10) 1,
       fontGet (n.toNat % 10) 2, 0, 0, 0] := by
  have hc : clampDisplay n = n := clampDisplay_of_mem n (by omega) (by omega)
  unfold displayNumber
  rw [hc]
  unfold renderNumber
  rw [if_neg (by omega), if_pos h1]
  rfl

/-- Witness for the amended C6: the single-digit layout at 5. -/
theorem displayNumber_single_digit_layout_witness :
    displayNumber 5 =
      [0, 0, fontGet ((5 : Int).toNat % 10) 0, fontGet ((5 : Int).toNat % 10) 1,
       fontGet ((5 : Int).toNat % 10) 2, 0, 0, 0] :=
  displayNumber_single_digit_layout 5 (by norm_num) (by norm_num)

-- --- C10 ---

/-- The `font` row indices `displayNumber` dereferences, per branch of the
source (tens and ones for two digits, ones otherwise). -/
def fontIndices (number : Int) : List Nat :=
  if 10 ≤ clampDisplay number then
    [(clampDisplay number).toNat / 10, (clampDisplay number).toNat % 10]
  else if 0 ≤ clampDisplay number then [(clampDisplay number).toNat % 10]
  else [(clampDisplay number).natAbs % 10]

/-- The `font_minus` indices `displayNumber` dereferences (only the negative
branch reads the minus glyph, at indices 0 and 1). -/
def fontMinusIndices (number : Int) : List Nat :=
  if 10 ≤ clampDisplay number then []
  else if 0 ≤ clampDisplay number then []
  else List.range 2

/-- The display columns passed to `lc.setColumn`, per branch of the source. -/
def displayColumns (number : Int) : List Nat :=
  if 10 ≤ clampDisplay number then
    List.range 3 ++ (List.range 3).map (fun i => i + 4)
  else if 0 ≤ clampDisplay number then (List.range 3).map (fun i => i + 2)
  else List.range 2 ++ (List.range 3).map (fun i => i + 3)

/-- C10: for every int argument, all table and display accesses are in
bounds: each `font` row index is ≤ 9 (and the tens index is ≥ 1), each
`font_minus` index is ≤ 1, each `setColumn` target is a column in [0, 7],
and the rendered buffer has exactly 8 columns. -/
theorem displayNumber_accesses_in_bounds (n : Int) :
    (∀ d ∈ fontIndices n, d ≤ 9)
    ∧ (10 ≤ clampDisplay n → 1 ≤ (clampDisplay n).toNat / 10)
    ∧ (∀ i ∈ fontMinusIndices n, i ≤ 1)
    ∧ (∀ c ∈ displayColumns n, c ≤ 7)
    ∧ (displayNumber n).length = 8 := by
  have hle : clampDisplay n ≤ 99 := clampDisplay_le n
  have hge : -9 ≤ clampDisplay n := clampDisplay_ge n
  refine ⟨?_, ?_, ?_, ?_, ?_⟩
  · intro d hd
    unfold fontIndices at hd
    split_ifs at hd <;> simp at hd <;> omega
  · intro h
    omega
  · intro i hi
    unfold fontMinusIndices at hi
    split_ifs at hi <;> simp at hi <;> omega
  · intro c hc
    unfold displayColumns at hc
    split_ifs at hc <;> simp at hc <;> omega
  · unfold displayNumber renderNumber
    split_ifs <;> rfl

/-- Witness for C10: concrete bounds at 55 (tens index 5, in [1, 9]) and at
the clamped extremes. -/
theorem displayNumber_accesses_in_bounds_witness :
    (5 : Nat) ≤ 9 ∧ 1 ≤ (clampDisplay 55).toNat / 10 ∧
    (displayNumber 55).length = 8 :=
  ⟨(displayNumber_accesses_in_bounds 55).1 5 (by decide),
   (displayNumber_accesses_in_bounds 55).2.1 (by decide),
   (displayNumber_accesses_in_bounds 55).2.2.2.2⟩

-- --- C2 ---

/-- On a failed read (`none` on either channel) `readSensor` either does
nothing (interval not yet elapsed) or only advances the timestamp. -/
theorem readSensor_failure_cases (now : Nat) (h t : Option ℚ)
    (s : ControllerState) (hf : h = none ∨ t = none) :
    readSensor now h t s =
      if SENSOR_READ_INTERVAL ≤ wsub now s.lastSensorReadTime then
        { s with lastSensorReadTime := now }
      else s := by
  unfold readSensor
  rcases hf with hf | hf <;> subst hf
  · rfl
  · cases h <;> rfl

/-- The frame drawn by `updateDisplay` depends only on the mode, the
interaction time, the setpoint and the temperature. -/
theorem updateDisplay_frame_congr (now : Nat) (s1 s2 : ControllerState)
    (h1 : s1.displayShowsSetTemp = s2.displayShowsSetTemp)
    (h2 : s1.lastInteractionTime = s2.lastInteractionTime)
    (h3 : s1.userSetTemperature = s2.userSetTemperature)
    (h4 : s1.currentTemperature = s2.currentTemperature) :
    (updateDisplay now s1).2 = (updateDisplay now s2).2 := by
  unfold updateDisplay
  simp only [h1, h2, h3, h4]
  split_ifs <;> simp_all

/-- C2: a failed poll (NaN on either channel) leaves the last-known-good
temperature and humidity unchanged, hence the actuator decision and the
rendered frame are unaffected; still, once the sampling interval has elapsed
the sample timestamp advances to `now`, deferring the next attempt a full
interval regardless of failure. -/
theorem readSensor_failure_retention (now : Nat) (h t : Option ℚ)
    (s : ControllerState) (hf : h = none ∨ t = none) :
    (readSensor now h t s).currentTemperature = s.currentTemperature
    ∧ (readSensor now h t s).currentHumidity = s.currentHumidity
    ∧ (SENSOR_READ_INTERVAL ≤ wsub now s.lastSensorReadTime →
        (readSensor now h t s).lastSensorReadTime = now)
    ∧ (wsub now s.lastSensorReadTime < SENSOR_READ_INTERVAL →
        readSensor now h t s = s)
    ∧ controlMosfet (readSensor now h t s) = controlMosfet s
    ∧ (∀ now2 : Nat,
        (updateDisplay now2 (readSensor now h t s)).2 =
          (updateDisplay now2 s).2) := by
  rw [readSensor_failure_cases now h t s hf]
  by_cases hi : SENSOR_READ_INTERVAL ≤ wsub now s.lastSensorReadTime
  · rw [if_pos hi]
    refine ⟨rfl, rfl, fun _ => rfl, fun hlt => absurd hi (by omega), rfl, ?_⟩
    intro now2
    exact updateDisplay_frame_congr now2 _ s rfl rfl rfl rfl
  · rw [if_neg hi]
    exact ⟨rfl, rfl, fun hge => absurd hge hi, fun _ => rfl, rfl,
      fun now2 => rfl⟩

/-- Witness for C2: a failed read at time 5000 from the fresh state advances
only the timestamp, keeping temperature 0 and the actuator off. -/
theorem readSensor_failure_retention_witness :
    (readSensor 5000 none none (mkState 25 0)).currentTemperature =
      (mkState 25 0).currentTemperature
    ∧ (readSensor 5000 none none (mkState 25 0)).lastSensorReadTime = 5000
    ∧ controlMosfet (readSensor 5000 none none (mkState 25 0)) =
        controlMosfet (mkState 25 0) :=
  ⟨(readSensor_failure_retention 5000 none none (mkState 25 0)
      (Or.inl rfl)).1,
   (readSensor_failure_retention 5000 none none (mkState 25 0)
      (Or.inl rfl)).2.2.1 (by decide),
   (readSensor_failure_retention 5000 none none (mkState 25 0)
      (Or.inl rfl)).2.2.2.2.1⟩

-- --- C7 helpers ---

/-- While the debounce window is still open, `handleButtons` is a no-op: the
pass is skipped entirely, nothing is sampled or queued. -/
theorem handleButtons_skip (now : Nat) (up down : Bool) (s : ControllerState)
    (h : wsub now s.lastDebounceTime ≤ DEBOUNCE_DELAY) :
    handleButtons now up down s = s := by
  unfold handleButtons
  rw [if_neg (by omega)]

/-- An accepted low-to-high edge on the UP button. -/
theorem handleButtons_up_edge (now : Nat) (s : ControllerState)
    (h1 : DEBOUNCE_DELAY < wsub now s.lastDebounceTime)
    (h2 : s.lastUpButtonState = false) :
    handleButtons now true false s =
      { s with userSetTemperature := s.userSetTemperature + 1,
               lastInteractionTime := now,
               displayShowsSetTemp := true,
               lastDebounceTime := now,
               lastUpButtonState := true,
               lastDownButtonState := false } := by
  unfold handleButtons
  rw [if_pos h1]
  simp [h2]

/-- A held-high UP button past the window: no edge, only the raw levels are
recorded. -/
theorem handleButtons_up_hold (now : Nat) (s : ControllerState)
    (h1 : DEBOUNCE_DELAY < wsub now s.lastDebounceTime)
    (h2 : s.lastUpButtonState = true) :
    handleButtons now true false s =
      { s with lastUpButtonState := true, lastDownButtonState := false } := by
  unfold handleButtons
  rw [if_pos h1]
  simp [h2]

/-- Both buttons sampled low past the window: no edge. -/
theorem handleButtons_release (now : Nat) (s : ControllerState)
    (h1 : DEBOUNCE_DELAY < wsub now s.lastDebounceTime) :
    handleButtons now false false s =
      { s with lastUpButtonState := false, lastDownButtonState := false } := by
  unfold handleButtons
  rw [if_pos h1]
  simp

/-- An accepted low-to-high edge on the DOWN button. -/
theorem handleButtons_down_edge (now : Nat) (s : ControllerState)
    (h1 : DEBOUNCE_DELAY < wsub now s.lastDebounceTime)
    (h2 : s.lastDownButtonState = false) :
    handleButtons now false true s =
      { s with userSetTemperature := s.userSetTemperature - 1,
               lastInteractionTime := now,
               displayShowsSetTemp := true,
               lastDebounceTime := now,
               lastUpButtonState := false,
               lastDownButtonState := true } := by
  unfold handleButtons
  rw [if_pos h1]
  simp [h2]

/-- C7 (amended): debounce behavior of `handleButtons` over raw sample
traces. -/
theorem handleButtons_debounce :
    (∀ (s : ControllerState) (t1 t2 t3 t4 : Nat),
        s.lastUpButtonState = false →
        s.lastDebounceTime ≤ t1 →
        DEBOUNCE_DELAY < t1 - s.lastDebounceTime →
        t1 ≤ t2 → t2 ≤ t3 → t3 - t1 ≤ DEBOUNCE_DELAY →
        t3 ≤ t4 → DEBOUNCE_DELAY < t4 - t1 → t4 < ULONG_MOD →
        (handleButtons t4 true false (handleButtons t3 true false
          (handleButtons t2 false false
            (handleButtons t1 true false s)))).userSetTemperature =
          s.userSetTemperature + 1)
    ∧ (∀ (s : ControllerState) (t1 t2 t3 : Nat),
        s.lastUpButtonState = false →
        s.lastDebounceTime ≤ t1 →
        DEBOUNCE_DELAY < t1 - s.lastDebounceTime →
        t1 ≤ t2 → DEBOUNCE_DELAY < t2 - t1 → t2 ≤ t3 → t3 < ULONG_MOD →
        (handleButtons t3 true false (handleButtons t2 false false
          (handleButtons t1 true false s))).userSetTemperature =
          s.userSetTemperature + 2)
    ∧ (∀ (s : ControllerState) (t1 t2 t3 : Nat),
        s.lastDownButtonState = false →
        s.lastDebounceTime ≤ t1 →
        DEBOUNCE_DELAY < t1 - s.lastDebounceTime →
        t1 ≤ t2 → t2 ≤ t3 → t3 - t1 ≤ DEBOUNCE_DELAY → t3 < ULONG_MOD →
        (handleButtons t3 false true (handleButtons t2 false false
          (handleButtons t1 false true s))).userSetTemperature =
          s.userSetTemperature - 1) := by
  refine ⟨?_, ?_, ?_⟩
  · intro s t1 t2 t3 t4 hu h01 h1 h12 h23 h31 h34 h41 hU
    rw [handleButtons_up_edge t1 s
      (by rw [wsub_eq_sub t1 s.lastDebounceTime h01 (by omega)]; exact h1) hu]
    rw [handleButtons_skip t2 false false
      { s with userSetTemperature := s.userSetTemperature + 1,
               lastInteractionTime := t1, displayShowsSetTemp := true,
               lastDebounceTime := t1, lastUpButtonState := true,
               lastDownButtonState := false }
      (by rw [wsub_eq_sub t2 t1 h12 (by omega)]; omega)]
    rw [handleButtons_skip t3 true false
      { s with userSetTemperature := s.userSetTemperature + 1,
               lastInteractionTime := t1, displayShowsSetTemp := true,
               lastDebounceTime := t1, lastUpButtonState := true,
               lastDownButtonState := false }
      (by rw [wsub_eq_sub t3 t1 (by omega) (by omega)]; omega)]
    rw [handleButtons_up_hold t4
      { s with userSetTemperature := s.userSetTemperature + 1,
               lastInteractionTime := t1, displayShowsSetTemp := true,
               lastDebounceTime := t1, lastUpButtonState := true,
               lastDownButtonState := false }
      (by rw [wsub_eq_sub t4 t1 (by omega) (by omega)]; exact h41) rfl]
  · intro s t1 t2 t3 hu h01 h1 h12 h21 h23 hU
    rw [handleButtons_up_edge t1 s
      (by rw [wsub_eq_sub t1 s.lastDebounceTime h01 (by omega)]; exact h1) hu]
    rw [handleButtons_release t2
      { s with userSetTemperature := s.userSetTemperature + 1,
               lastInteractionTime := t1, displayShowsSetTemp := true,
               lastDebounceTime := t1, lastUpButtonState := true,
               lastDownButtonState := false }
      (by rw [wsub_eq_sub t2 t1 h12 (by omega)]; exact h21)]
    rw [handleButtons_up_edge t3
      { s with userSetTemperature := s.userSetTemperature + 1,
               lastInteractionTime := t1, displayShowsSetTemp := true,
               lastDebounceTime := t1, lastUpButtonState := false,
               lastDownButtonState := false }
      (by rw [wsub_eq_sub t3 t1 (by omega) (by omega)]; omega) rfl]
    show s.userSetTemperature + 1 + 1 = s.userSetTemperature + 2
    omega
  · intro s t1 t2 t3 hd h01 h1 h12 h23 h31 hU
    rw [handleButtons_down_edge t1 s
      (by rw [wsub_eq_sub t1 s.lastDebounceTime h01 (by omega)]; exact h1) hd]
    rw [handleButtons_skip t2 false false
      { s with userSetTemperature := s.userSetTemperature - 1,
               lastInteractionTime := t1, displayShowsSetTemp := true,
               lastDebounceTime := t1, lastUpButtonState := false,
               lastDownButtonState := true }
      (by rw [wsub_eq_sub t2 t1 h12 (by omega)]; omega)]
    rw [handleButtons_skip t3 false true
      { s with userSetTemperature := s.userSetTemperature - 1,
               lastInteractionTime := t1, displayShowsSetTemp := true,
               lastDebounceTime := t1, lastUpButtonState := false,
               lastDownButtonState := true }
      (by rw [wsub_eq_sub t3 t1 (by omega) (by omega)]; omega)]

/-- Counterexample for C7 as stated: raw samples high at 60 ms, low at 80 ms,
high at 120 ms from a fresh state (window origin 0).  The two presses are
60 ms apart — more than the 50 ms window — yet only one edge is accepted
(the setpoint moves from 25 to 26, not 27), because the release at 80 ms fell
inside the window and the press-low level was never recorded. -/
theorem handleButtons_second_press_swallowed :
    DEBOUNCE_DELAY < 120 - 60
    ∧ (handleButtons 120 true false (handleButtons 80 false false
        (handleButtons 60 true false (mkState 25 0)))).userSetTemperature = 26
    ∧ (handleButtons 120 true false (handleButtons 80 false false
        (handleButtons 60 true false (mkState 25 0)))).userSetTemperature ≠ 27 := by
  refine ⟨by decide, by decide, by decide⟩

/-- Witness for the amended C7: concrete traces.  Presses at 60 ms and 100 ms
(40 ms apart, inside the window) yield one edge; presses at 60 ms and 140 ms
with the release sampled at 120 ms (outside the window) yield two edges; a
DOWN press at 60 ms re-sampled inside the window yields one decrement. -/
theorem handleButtons_debounce_witness :
    (handleButtons 200 true false (handleButtons 100 true false
      (handleButtons 70 false false
        (handleButtons 60 true false (mkState 25 0))))).userSetTemperature = 26
    ∧ (handleButtons 140 true false (handleButtons 120 false false
        (handleButtons 60 true false (mkState 25 0)))).userSetTemperature = 27
    ∧ (handleButtons 100 false true (handleButtons 70 false false
        (handleButtons 60 false true (mkState 25 0)))).userSetTemperature = 24 :=
  ⟨handleButtons_debounce.1 (mkState 25 0) 60 70 100 200 rfl (by decide)
      (by decide) (by norm_num) (by norm_num) (by decide) (by norm_num)
      (by decide) (by decide),
   handleButtons_debounce.2.1 (mkState 25 0) 60 120 140 rfl (by decide)
      (by decide) (by norm_num) (by decide) (by norm_num) (by decide),
   handleButtons_debounce.2.2 (mkState 25 0) 60 70 100 rfl (by decide)
      (by decide) (by norm_num) (by norm_num) (by decide) (by decide)⟩

-- --- C8 helpers ---

/-- `readSensor` never touches the display mode, the interaction time or the
setpoint. -/
theorem readSensor_preserves (now : Nat) (h t : Option ℚ)
    (s : ControllerState) :
    (readSensor now h t s).displayShowsSetTemp = s.displayShowsSetTemp
    ∧ (readSensor now h t s).lastInteractionTime = s.lastInteractionTime
    ∧ (readSensor now h t s).userSetTemperature = s.userSetTemperature := by
  unfold readSensor
  split_ifs <;> cases h <;> cases t <;> simp

/-- While the idle timeout has not strictly elapsed, `updateDisplay` keeps the
setpoint on screen. -/
theorem updateDisplay_stays (now : Nat) (s : ControllerState)
    (hm : s.displayShowsSetTemp = true)
    (hle : wsub now s.lastInteractionTime ≤ DISPLAY_TIMEOUT) :
    (updateDisplay now s).1.displayShowsSetTemp = true
    ∧ (updateDisplay now s).2 = displayNumber s.userSetTemperature := by
  unfold updateDisplay
  rw [if_neg (by rintro ⟨hx, hy⟩; omega)]
  simp [hm]

/-- Once the idle timeout has strictly elapsed, `updateDisplay` reverts to the
current reading. -/
theorem updateDisplay_reverts (now : Nat) (s : ControllerState)
    (hm : s.displayShowsSetTemp = true)
    (hlt : DISPLAY_TIMEOUT < wsub now s.lastInteractionTime) :
    (updateDisplay now s).1.displayShowsSetTemp = false
    ∧ (updateDisplay now s).2 = displayNumber (round s.currentTemperature) := by
  unfold updateDisplay
  rw [if_pos ⟨hm, hlt⟩]
  simp

/-- An accepted edge on either button switches the display to the setpoint
and records the interaction time. -/
theorem handleButtons_edge_sets_mode (now : Nat) (up down : Bool)
    (s : ControllerState)
    (hgate : DEBOUNCE_DELAY < wsub now s.lastDebounceTime)
    (hdisj : (up = true ∧ s.lastUpButtonState = false) ∨
      (down = true ∧ s.lastDownButtonState = false)) :
    (handleButtons now up down s).displayShowsSetTemp = true
    ∧ (handleButtons now up down s).lastInteractionTime = now := by
  unfold handleButtons
  rw [if_pos hgate]
  rcases hdisj with ⟨hu, hlu⟩ | ⟨hd, hld⟩
  · subst hu
    simp [hlu]
    split_ifs <;> simp
  · subst hd
    split_ifs <;> simp_all

-- --- C8 ---

/-- C8: an accepted button edge switches the display to "showing setpoint"
and stamps the interaction time; the mode stays "showing setpoint" for as
long as at most the 10 s idle timeout has elapsed since that stamp, and
reverts to "showing current reading" as soon as strictly more has elapsed;
the reversion check runs in `updateDisplay` on every loop pass, even when the
debounce gate keeps `handleButtons` from polling the buttons at all. -/
theorem displayMode_reversion (now : Nat) (s : ControllerState) :
    (∀ up down : Bool,
      DEBOUNCE_DELAY < wsub now s.lastDebounceTime →
      (up = true ∧ s.lastUpButtonState = false) ∨
        (down = true ∧ s.lastDownButtonState = false) →
      (handleButtons now up down s).displayShowsSetTemp = true
      ∧ (handleButtons now up down s).lastInteractionTime = now)
    ∧ (s.displayShowsSetTemp = true →
      wsub now s.lastInteractionTime ≤ DISPLAY_TIMEOUT →
      (updateDisplay now s).1.displayShowsSetTemp = true
      ∧ (updateDisplay now s).2 = displayNumber s.userSetTemperature)
    ∧ (s.displayShowsSetTemp = true →
      DISPLAY_TIMEOUT < wsub now s.lastInteractionTime →
      (updateDisplay now s).1.displayShowsSetTemp = false
      ∧ (updateDisplay now s).2 = displayNumber (round s.currentTemperature))
    ∧ (∀ (up down : Bool) (h t : Option ℚ),
      wsub now s.lastDebounceTime ≤ DEBOUNCE_DELAY →
      s.displayShowsSetTemp = true →
      DISPLAY_TIMEOUT < wsub now s.lastInteractionTime →
      (loopPass now up down h t s).1.displayShowsSetTemp = false) := by
  refine ⟨fun up down hg hd => handleButtons_edge_sets_mode now up down s hg hd,
    fun hm hle => updateDisplay_stays now s hm hle,
    fun hm hlt => updateDisplay_reverts now s hm hlt,
    ?_⟩
  intro up down h t hgate hm hlt
  show (updateDisplay now (readSensor now h t
    (handleButtons now up down s))).1.displayShowsSetTemp = false
  rw [handleButtons_skip now up down s hgate]
  exact (updateDisplay_reverts now (readSensor now h t s)
    (by rw [(readSensor_preserves now h t s).1]; exact hm)
    (by rw [(readSensor_preserves now h t s).2.1]; exact hlt)).1

/-- Witness for C8: from a state showing the setpoint since time 0, the mode
still shows the setpoint at 10000 ms and reverts at 10001 ms; an accepted UP
edge at 60 ms switches the mode on. -/
theorem displayMode_reversion_witness :
    (updateDisplay 10000
      { mkState 30 0 with displayShowsSetTemp := true }).1.displayShowsSetTemp
        = true
    ∧ (updateDisplay 10001
      { mkState 30 0 with displayShowsSetTemp := true }).1.displayShowsSetTemp
        = false
    ∧ (handleButtons 60 true false (mkState 25 0)).displayShowsSetTemp = true :=
  ⟨((displayMode_reversion 10000
      { mkState 30 0 with displayShowsSetTemp := true }).2.1 rfl (by decide)).1,
   ((displayMode_reversion 10001
      { mkState 30 0 with displayShowsSetTemp := true }).2.2.1 rfl (by decide)).1,
   ((displayMode_reversion 60 (mkState 25 0)).1 true false (by decide)
      (Or.inl ⟨rfl, rfl⟩)).1⟩

-- --- C9 ---

/-- Modelled from the spec: the display scan engine is delegated to the
LedControl/MAX7219 driver library, whose source is not part of this
repository; only the driver object `lc` is instantiated (src lines 289-291).
Spec section 4.2 step (d): per scan tick the column cursor is advanced mod 8;
section 3: the cursor identifies the column currently driven, is incremented
(mod 8) once per tick and reset only on overflow, never externally. -/
def scanAdvance (cursor : Nat) : Nat := (cursor + 1) % 8

/-- C9: the scan cursor stays an integer in [0, 8), is incremented mod 8
exactly once per tick, visits all 8 columns exactly once every 8 ticks,
deterministically, and wraps from 7 back to 0 — that wraparound being the
only reset. -/
theorem scanCursor_cycles (c : Nat) (hc : c < 8) :
    scanAdvance c < 8
    ∧ scanAdvance^[8] c = c
    ∧ ((List.range 8).map (fun k => scanAdvance^[k] c)).Nodup
    ∧ (∀ col : Nat, col < 8 →
        col ∈ (List.range 8).map (fun k => scanAdvance^[k] c))
    ∧ scanAdvance 7 = 0
    ∧ (∀ x : Nat, x < 8 → scanAdvance x = 0 → x = 7) := by
  interval_cases c <;>
    exact ⟨by decide, by decide, by decide, by decide, by decide, by decide⟩

/-- Witness for C9: the cycle starting at column 0, with column 3 among the
8 columns visited. -/
theorem scanCursor_cycles_witness :
    scanAdvance 0 < 8
    ∧ scanAdvance^[8] 0 = 0
    ∧ ((List.range 8).map (fun k => scanAdvance^[k] 0)).Nodup
    ∧ (3 : Nat) ∈ (List.range 8).map (fun k => scanAdvance^[k] 0)
    ∧ scanAdvance 7 = 0 :=
  ⟨(scanCursor_cycles 0 (by decide)).1,
   (scanCursor_cycles 0 (by decide)).2.1,
   (scanCursor_cycles 0 (by decide)).2.2.1,
   (scanCursor_cycles 0 (by decide)).2.2.2.1 3 (by decide),
   (scanCursor_cycles 0 (by decide)).2.2.2.2.1⟩
